import Mathlib

/-!
Shallow embedding of the multi-provider AI invocation layer of RFPAnalyser
(source: the ES module exporting `getAvailableProviders`, `getBestProvider`,
the six `analyzeWith*` adapters, and the orchestrator `analyzeWithAI`).

Modelling conventions:
* JavaScript strings are Lean `String`s; `s.substring(0, n)` is `jsSubstring s n`
  (take the first `n` characters).
* A JS value that may be `undefined`, `null` or a proper value is `JSVal`.
  A default parameter value applies exactly when the argument is `undefined`.
* The external world (backend responses, whether the local Ollama service
  answers its version probe) is an oracle `World`; the process-wide mutable
  `providers.*.available` flags are a `CallState` threaded through the
  computation (only the ollama flag is ever mutated, by
  `checkOllamaAvailability`).
* A rejected promise / thrown `Error` is `Except.error`; the distinct error
  sites of the source are the constructors of `Err`.  Backend failures
  delivered by the oracle are `Err.backendFail`.
* The JS recursion in `analyzeWithAI` need not terminate, so the embedding
  takes a fuel parameter; running out of fuel yields the marker error
  `Err.fuelExhausted` (standing for a non-terminating / stack-overflowing run).
* Besides the result and the final flag state, the embedding returns the
  trace of adapter invocations (which `analyzeWith<Provider>` functions were
  entered, in order), used to state attempt-counting properties.
* `usage` passthrough is not modelled (no claim concerns it).
-/

/-- The six provider keys of the registry object, in the order of its
property declarations: anthropic, xai, openai, groq, ollama, huggingface. -/
inductive ProviderKey where
  | anthropic
  | xai
  | openai
  | groq
  | ollama
  | huggingface
deriving DecidableEq, Repr

/-- The JS object-key string of each provider (also the strings matched by
the `switch` in `analyzeWithAI`). -/
def keyStr : ProviderKey → String
  | .anthropic => "anthropic"
  | .xai => "xai"
  | .openai => "openai"
  | .groq => "groq"
  | .ollama => "ollama"
  | .huggingface => "huggingface"

/-- Parse a provider string as the `switch` of `analyzeWithAI` does: the
recognized cases, in source order; anything else falls to `default`. -/
def keyOf (s : String) : Option ProviderKey :=
  if s = "anthropic" then some .anthropic
  else if s = "xai" then some .xai
  else if s = "openai" then some .openai
  else if s = "groq" then some .groq
  else if s = "ollama" then some .ollama
  else if s = "huggingface" then some .huggingface
  else none

/-- Insertion order of the `providers` object literal; `Object.entries`
enumerates string keys in this order. -/
def registryOrder : List ProviderKey :=
  [.anthropic, .xai, .openai, .groq, .ollama, .huggingface]

/-- Static per-provider data of the `providers` registry object:
display name, supported model list, cost tier (the `available` flags are
runtime state, held in `CallState`). -/
def providerModels : ProviderKey → List String
  | .anthropic => ["claude-3-5-sonnet-20241022", "claude-3-haiku-20240307", "claude-3-opus-20240229"]
  | .xai => ["grok-beta", "grok-vision-beta"]
  | .openai => ["gpt-3.5-turbo", "gpt-4", "gpt-4-turbo"]
  | .groq => ["llama3-8b-8192", "llama3-70b-8192", "mixtral-8x7b-32768", "gemma-7b-it"]
  | .ollama => ["llama3", "mistral", "codellama", "phi3"]
  | .huggingface => ["microsoft/DialoGPT-large", "facebook/blenderbot-400M-distill"]

/-- A JavaScript value that can be `undefined`, `null`, or a value. -/
inductive JSVal (α : Type) where
  | undef
  | jsNull
  | val (a : α)
deriving DecidableEq, Repr

/-- A JS default parameter: the default applies exactly to `undefined`. -/
def jsOrDefault {α : Type} (m : JSVal α) (d : α) : JSVal α :=
  match m with
  | .undef => .val d
  | x => x

/-- The distinct failure modes of the module: the orchestrator's
no-provider throw, an adapter's not-configured throw, ollama's
not-available throw, the `switch` default's unknown-provider throw, a
failure coming back from a backend call, and the out-of-fuel marker of the
embedding (standing for a non-terminating recursion). -/
inductive Err where
  | noProviderAvailable
  | notConfigured (k : ProviderKey)
  | ollamaNotAvailable
  | unknownProvider (s : String)
  | backendFail (k : ProviderKey) (code : Nat)
  | fuelExhausted
deriving DecidableEq, Repr

/-- The canonical result shape the adapters return: response text, the
provider string, and the model field (which can be `null` for anthropic
when a `null` model was passed through). -/
structure AIResult where
  content : String
  provider : String
  model : JSVal String
deriving DecidableEq, Repr

/-- The external world: what each backend would answer (text or failure),
and whether the local Ollama service answers its version probe. -/
structure World where
  resp : ProviderKey → Except Err String
  ollamaRuntime : Bool

/-- The process-wide mutable `available` flags of the registry. -/
structure CallState where
  avail : ProviderKey → Bool

/-- `s.substring(0, n)`: the first `n` characters of `s`. -/
def jsSubstring (s : String) (n : Nat) : String :=
  String.mk (s.data.take n)

/-- `getAvailableProviders`: the registry entries whose `available` flag is
set, in the object's insertion order (the source also copies the
descriptor fields; only the key matters downstream). -/
def getAvailableProviders (st : CallState) : List ProviderKey :=
  registryOrder.filter (fun k => st.avail k)

/-- `getBestProvider`: the fixed priority cascade of the source
(anthropic, then xai, then ollama, then groq, then huggingface, then
openai), `null` when none is available. -/
def getBestProvider (st : CallState) : Option ProviderKey :=
  if st.avail .anthropic then some .anthropic
  else if st.avail .xai then some .xai
  else if st.avail .ollama then some .ollama
  else if st.avail .groq then some .groq
  else if st.avail .huggingface then some .huggingface
  else if st.avail .openai then some .openai
  else none

/-- `checkOllamaAvailability`: probe the local service and store the
outcome in the registry's ollama `available` flag. -/
def checkOllamaAvailability (w : World) (st : CallState) : CallState :=
  { avail := fun k => if k = .ollama then w.ollamaRuntime else st.avail k }

/-- `analyzeWithAnthropic`: throws when the client was never constructed
(no API key at start-up, i.e. the anthropic flag is down), otherwise calls
the backend; the `model` parameter defaults (for `undefined` only) to
`"claude-3-5-sonnet-20241022"`, and is reported back in the result. -/
def analyzeWithAnthropic (w : World) (st : CallState) (content prompt : String)
    (model : JSVal String) : Except Err AIResult :=
  if st.avail .anthropic = false then .error (.notConfigured .anthropic)
  else
    match w.resp .anthropic with
    | .error e => .error e
    | .ok s => .ok ⟨s, "anthropic", jsOrDefault model "claude-3-5-sonnet-20241022"⟩

/-- `analyzeWithXAI`: hardcodes model `"grok-beta"`. -/
def analyzeWithXAI (w : World) (st : CallState) (content prompt : String) :
    Except Err AIResult :=
  if st.avail .xai = false then .error (.notConfigured .xai)
  else
    match w.resp .xai with
    | .error e => .error e
    | .ok s => .ok ⟨s, "xai", .val "grok-beta"⟩

/-- `analyzeWithOpenAI`: hardcodes model `"gpt-3.5-turbo"`. -/
def analyzeWithOpenAI (w : World) (st : CallState) (content prompt : String) :
    Except Err AIResult :=
  if st.avail .openai = false then .error (.notConfigured .openai)
  else
    match w.resp .openai with
    | .error e => .error e
    | .ok s => .ok ⟨s, "openai", .val "gpt-3.5-turbo"⟩

/-- `analyzeWithGroq`: hardcodes model `"llama3-8b-8192"`. -/
def analyzeWithGroq (w : World) (st : CallState) (content prompt : String) :
    Except Err AIResult :=
  if st.avail .groq = false then .error (.notConfigured .groq)
  else
    match w.resp .groq with
    | .error e => .error e
    | .ok s => .ok ⟨s, "groq", .val "llama3-8b-8192"⟩

/-- The prompt string the ollama adapter posts to `/api/generate`: the full
instruction text, a fixed separator, then the document content truncated to
its first 3000 characters. -/
def ollamaRequestPrompt (content prompt : String) : String :=
  prompt ++ "\n\nDocument content: " ++ jsSubstring content 3000

/-- `analyzeWithOllama`: re-probes the local service first (mutating the
flag), fails fast when it is down, otherwise posts `ollamaRequestPrompt`
and reports model `"llama3"`. -/
def analyzeWithOllama (w : World) (st : CallState) (content prompt : String) :
    Except Err AIResult × CallState :=
  let st1 := checkOllamaAvailability w st
  if st1.avail .ollama = false then (.error .ollamaNotAvailable, st1)
  else
    match w.resp .ollama with
    | .error e => (.error e, st1)
    | .ok s => (.ok ⟨s, "ollama", .val "llama3"⟩, st1)

/-- The inference endpoint URL the huggingface adapter posts to. -/
def hfEndpoint : String :=
  "https://api-inference.huggingface.co/models/microsoft/DialoGPT-large"

/-- The `inputs` field the huggingface adapter sends: the prompt truncated
to its first 1000 characters; the document content is not used at all. -/
def hfRequestInput (content prompt : String) : String :=
  jsSubstring prompt 1000

/-- `analyzeWithHuggingFace`: throws when the API key is absent (the
huggingface flag is down), otherwise posts `hfRequestInput` and reports
model `"DialoGPT-large"`.  An absent or empty `generated_text` (both falsy
in JS) is replaced by the fixed fallback sentence; absence is modelled as
the empty string. -/
def analyzeWithHuggingFace (w : World) (st : CallState) (content prompt : String) :
    Except Err AIResult :=
  if st.avail .huggingface = false then .error (.notConfigured .huggingface)
  else
    match w.resp .huggingface with
    | .error e => .error e
    | .ok s =>
        .ok ⟨if s = "" then "Analysis completed with limited functionality" else s,
             "huggingface", .val "DialoGPT-large"⟩

/-- The `switch` body of `analyzeWithAI`: dispatch a recognized provider
key to its adapter.  Only the anthropic case receives the caller's
`preferredModel` (a JS `null` when absent); every other case calls a
two-argument adapter.  Returns the adapter's outcome and the possibly
updated flag state. -/
def runAdapter (w : World) (st : CallState) (k : ProviderKey)
    (content prompt : String) (preferredModel : Option String) :
    Except Err AIResult × CallState :=
  match k with
  | .anthropic =>
      (analyzeWithAnthropic w st content prompt
        (match preferredModel with | none => .jsNull | some m => .val m), st)
  | .xai => (analyzeWithXAI w st content prompt, st)
  | .openai => (analyzeWithOpenAI w st content prompt, st)
  | .groq => (analyzeWithGroq w st content prompt, st)
  | .ollama => analyzeWithOllama w st content prompt
  | .huggingface => (analyzeWithHuggingFace w st content prompt, st)

/-- `const provider = preferredProvider || getBestProvider()`: a supplied
non-empty preference wins outright (whether or not that provider is
available); `null` or the empty string (both falsy) fall through to
`getBestProvider`. -/
def selectProvider (st : CallState) (preferredProvider : Option String) :
    Option String :=
  match preferredProvider with
  | some s => if s = "" then (getBestProvider st).map keyStr else some s
  | none => (getBestProvider st).map keyStr

/-- The `available` list the catch block computes before falling back:
`getAvailableProviders()` with the provider string that just failed
filtered out. -/
def fallbackCandidates (st : CallState) (provider : String) : List ProviderKey :=
  (getAvailableProviders st).filter (fun k => keyStr k ≠ provider)

/-- `analyzeWithAI(content, prompt, preferredProvider, preferredModel)`:
resolve the provider string, throw `noProviderAvailable` when it is falsy,
dispatch through the `switch` (an unrecognized string throws
`unknownProvider` from the `default` case, inside the `try`), and in the
`catch` recompute the available list without the failed provider string
and, when non-empty, recurse on its first element (passing no model, so
the recursive call's `preferredModel` is `null`); when empty, rethrow the
original error.  The third component is the trace of adapter invocations. -/
def analyzeWithAI : Nat → World → CallState → String → String →
    Option String → Option String →
    Except Err AIResult × CallState × List ProviderKey
  | 0, _, st, _, _, _, _ => (.error .fuelExhausted, st, [])
  | fuel + 1, w, st, content, prompt, preferredProvider, preferredModel =>
    match selectProvider st preferredProvider with
    | none => (.error .noProviderAvailable, st, [])
    | some providerStr =>
      match keyOf providerStr with
      | none =>
        match fallbackCandidates st providerStr with
        | [] => (.error (.unknownProvider providerStr), st, [])
        | h :: _ => analyzeWithAI fuel w st content prompt (some (keyStr h)) none
      | some k =>
        match runAdapter w st k content prompt preferredModel with
        | (.ok r, st2) => (.ok r, st2, [k])
        | (.error e, st2) =>
          match fallbackCandidates st2 providerStr with
          | [] => (.error e, st2, [k])
          | h :: _ =>
            let r2 := analyzeWithAI fuel w st2 content prompt (some (keyStr h)) none
            (r2.1, r2.2.1, k :: r2.2.2)

deriving instance DecidableEq for Except

/-- The priority order the spec asserts for selection
(anthropic > xai > ollama > groq > huggingface > openai), transcribed from
the spec's words to compare against `getBestProvider` and against the
fallback choice. -/
def specPriorityOrder : List ProviderKey :=
  [.anthropic, .xai, .ollama, .groq, .huggingface, .openai]

-- Concrete registry states and worlds used by the closed theorems below.

/-- Registry state: only xai and groq configured. -/
def stA : CallState := ⟨fun k => match k with | .xai => true | .groq => true | _ => false⟩

/-- World where the xai and groq backends both fail. -/
def wA : World := ⟨fun k => match k with
  | .xai => .error (.backendFail .xai 0)
  | .groq => .error (.backendFail .groq 1)
  | _ => .ok "unused", false⟩

/-- Registry state: only openai configured. -/
def stB : CallState := ⟨fun k => match k with | .openai => true | _ => false⟩

/-- World where the openai backend fails. -/
def wB : World := ⟨fun k => match k with
  | .openai => .error (.backendFail .openai 7)
  | _ => .ok "unused", false⟩

/-- Registry state: xai, openai and groq configured. -/
def stC : CallState := ⟨fun k => match k with
  | .xai => true | .openai => true | .groq => true | _ => false⟩

/-- World where the xai backend fails and every other backend answers. -/
def wC : World := ⟨fun k => match k with
  | .xai => .error (.backendFail .xai 0)
  | _ => .ok "A", false⟩

/-- World where every backend answers. -/
def wD : World := ⟨fun _ => .ok "A", false⟩

/-- Registry state: only huggingface configured. -/
def stHF : CallState := ⟨fun k => match k with | .huggingface => true | _ => false⟩

/-- Registry state: nothing configured. -/
def stNone : CallState := ⟨fun _ => false⟩

/-- World for the empty registry state. -/
def wNone : World := ⟨fun _ => .ok "x", false⟩

/-- Registry state: everything configured. -/
def stAll : CallState := ⟨fun _ => true⟩

/-- World where every backend answers and the local Ollama probe succeeds. -/
def wAll : World := ⟨fun _ => .ok "txt", true⟩

theorem keyStr_ne_empty (k : ProviderKey) : keyStr k ≠ "" := by
  cases k <;> decide

theorem keyOf_keyStr (k : ProviderKey) : keyOf (keyStr k) = some k := by
  cases k <;> decide

theorem keyOf_eq_some {s : String} {k : ProviderKey} (h : keyOf s = some k) :
    s = keyStr k := by
  unfold keyOf at h
  split_ifs at h
  all_goals (injection h with h2; subst h2; simp_all [keyStr])

theorem keyStr_ne_of_keyOf_none {s : String} (h : keyOf s = none)
    (k : ProviderKey) : keyStr k ≠ s := by
  intro he
  rw [← he, keyOf_keyStr] at h
  exact Option.noConfusion h

theorem selectProvider_some (st : CallState) {s : String} (h : s ≠ "") :
    selectProvider st (some s) = some s := by
  simp [selectProvider, h]

/-- One unfolding step of the orchestrator when the preferred string is a
recognized provider key: run that adapter; on success return its result,
on failure rethrow or recurse on the first fallback candidate. -/
theorem analyzeWithAI_succ_known (fuel : Nat) (w : World) (st : CallState)
    (c p : String) (k : ProviderKey) (pm : Option String) :
    analyzeWithAI (fuel + 1) w st c p (some (keyStr k)) pm =
      match runAdapter w st k c p pm with
      | (.ok r, st2) => (.ok r, st2, [k])
      | (.error e, st2) =>
        match fallbackCandidates st2 (keyStr k) with
        | [] => (.error e, st2, [k])
        | h :: _ =>
          let r2 := analyzeWithAI fuel w st2 c p (some (keyStr h)) none
          (r2.1, r2.2.1, k :: r2.2.2) := by
  simp [analyzeWithAI, selectProvider, keyStr_ne_empty k, keyOf_keyStr]

/-- When the adapter of the resolved provider fails and no other provider
is available, the orchestrator rethrows that adapter's error. -/
theorem analyzeWithAI_fail_nil (fuel : Nat) (w : World) (st : CallState)
    (c p s : String) (k : ProviderKey) (pm : Option String) (e : Err)
    (st2 : CallState) (hkey : keyOf s = some k)
    (hrun : runAdapter w st k c p pm = (.error e, st2))
    (hcand : fallbackCandidates st2 s = []) :
    analyzeWithAI (fuel + 1) w st c p (some s) pm = (.error e, st2, [k]) := by
  have hs : s = keyStr k := keyOf_eq_some hkey
  subst hs
  rw [analyzeWithAI_succ_known, hrun]
  simp [hcand]

/-- When the adapter of the resolved provider fails and a fallback
candidate exists, the call's outcome is exactly the recursive fallback
invocation's outcome (with the failed provider prefixed to the trace). -/
theorem analyzeWithAI_fail_cons (fuel : Nat) (w : World) (st : CallState)
    (c p s : String) (k : ProviderKey) (pm : Option String) (e : Err)
    (st2 : CallState) (h : ProviderKey) (t : List ProviderKey)
    (hkey : keyOf s = some k)
    (hrun : runAdapter w st k c p pm = (.error e, st2))
    (hcand : fallbackCandidates st2 s = h :: t) :
    analyzeWithAI (fuel + 1) w st c p (some s) pm =
      ((analyzeWithAI fuel w st2 c p (some (keyStr h)) none).1,
       (analyzeWithAI fuel w st2 c p (some (keyStr h)) none).2.1,
       k :: (analyzeWithAI fuel w st2 c p (some (keyStr h)) none).2.2) := by
  have hs : s = keyStr k := keyOf_eq_some hkey
  subst hs
  rw [analyzeWithAI_succ_known, hrun]
  simp [hcand]

/-- One unfolding step of the orchestrator when the preferred string is
not a recognized provider key: the unknown-provider throw is caught and
the whole available list (nothing is excluded by the key filter) drives
the fallback. -/
theorem analyzeWithAI_succ_unknown (fuel : Nat) (w : World) (st : CallState)
    (c p u : String) (pm : Option String) (hu : keyOf u = none) (hne : u ≠ "") :
    analyzeWithAI (fuel + 1) w st c p (some u) pm =
      match getAvailableProviders st with
      | [] => (.error (.unknownProvider u), st, [])
      | h :: _ => analyzeWithAI fuel w st c p (some (keyStr h)) none := by
  have hcand : fallbackCandidates st u = getAvailableProviders st := by
    unfold fallbackCandidates
    apply List.filter_eq_self.mpr
    intro a _
    simpa using keyStr_ne_of_keyOf_none hu a
  simp [analyzeWithAI, selectProvider, hne, hu, hcand]

/-- A call whose preferred provider is a recognized key and which has fuel
left always begins its attempt trace with that key. -/
theorem analyzeWithAI_trace_head_succ (fuel : Nat) (w : World) (st : CallState)
    (c p : String) (h : ProviderKey) (pm : Option String) :
    ∃ rest, (analyzeWithAI (fuel + 1) w st c p (some (keyStr h)) pm).2.2 = h :: rest := by
  rw [analyzeWithAI_succ_known]
  rcases hrun : runAdapter w st h c p pm with ⟨res, st2⟩
  cases res with
  | ok r => exact ⟨[], by simp⟩
  | error e =>
    rcases hcand : fallbackCandidates st2 (keyStr h) with _ | ⟨h2, t⟩
    · exact ⟨[], by simp [hcand]⟩
    · exact ⟨(analyzeWithAI fuel w st2 c p (some (keyStr h2)) none).2.2, by simp [hcand]⟩

theorem analyzeWithAI_trace_head (fuel : Nat) (w : World) (st : CallState)
    (c p : String) (h : ProviderKey) (pm : Option String) :
    (analyzeWithAI fuel w st c p (some (keyStr h)) pm).2.2 = [] ∨
    ∃ rest, (analyzeWithAI fuel w st c p (some (keyStr h)) pm).2.2 = h :: rest := by
  cases fuel with
  | zero => exact Or.inl rfl
  | succ n => exact Or.inr (analyzeWithAI_trace_head_succ n w st c p h pm)

theorem runAdapter_model_irrelevant (w : World) (st : CallState) (c p : String)
    {k : ProviderKey} (hk : k ≠ ProviderKey.anthropic) (m1 m2 : Option String) :
    runAdapter w st k c p m1 = runAdapter w st k c p m2 := by
  cases k <;> first | exact absurd rfl hk | rfl

/-- Claim C1, counterexample: with only xai and groq configured and both
backends failing, a single call attempts xai, then groq, then xai again —
three adapter attempts, the same provider twice — and still has not
settled (the fuel-3 run ends in the out-of-fuel marker, witnessing the
unbounded retry loop). -/
theorem fallback_three_attempts_with_repeat :
    (analyzeWithAI 3 wA stA "c" "p" none none).2.2 = [.xai, .groq, .xai] ∧
    ¬ (analyzeWithAI 3 wA stA "c" "p" none none).2.2.length ≤ 2 ∧
    ¬ (analyzeWithAI 3 wA stA "c" "p" none none).2.2.Nodup ∧
    (analyzeWithAI 3 wA stA "c" "p" none none).1 = .error .fuelExhausted ∧
    stA.avail .xai = true ∧ stA.avail .groq = true := by
  decide

/-- Claim C1, amended: each invocation frame makes at most one direct
fallback dispatch, and that dispatch always targets a provider different
from the one that just failed, so no provider is ever attempted twice in
a row; but the fallback is a recursive re-invocation that excludes only
the immediately failing provider, so the total number of adapter attempts
in one call can exceed two and a provider can be re-attempted later. -/
theorem fallback_trace_adjacent_distinct (fuel : Nat) :
    ∀ (w : World) (st : CallState) (c p : String) (pref pm : Option String),
      List.Chain' (fun a b => a ≠ b) (analyzeWithAI fuel w st c p pref pm).2.2 := by
  induction fuel with
  | zero => intro w st c p pref pm; simp [analyzeWithAI]
  | succ n ih =>
    intro w st c p pref pm
    rcases hsel : selectProvider st pref with _ | s
    · simp [analyzeWithAI, hsel]
    · rcases hkey : keyOf s with _ | k
      · rcases hcand : fallbackCandidates st s with _ | ⟨h, t⟩
        · simp [analyzeWithAI, hsel, hkey, hcand]
        · have hch := ih w st c p (some (keyStr h)) none
          simpa [analyzeWithAI, hsel, hkey, hcand] using hch
      · rcases hrun : runAdapter w st k c p pm with ⟨res, st2⟩
        cases res with
        | ok r => simp [analyzeWithAI, hsel, hkey, hrun]
        | error e =>
          rcases hcand : fallbackCandidates st2 s with _ | ⟨h, t⟩
          · simp [analyzeWithAI, hsel, hkey, hrun, hcand]
          · have hne : h ≠ k := by
              have hmem : h ∈ fallbackCandidates st2 s := by
                rw [hcand]; exact List.mem_cons_self _ _
              have hp : keyStr h ≠ s := by
                have := (List.mem_filter.mp hmem).2
                simpa using this
              have hs : s = keyStr k := keyOf_eq_some hkey
              intro hEq
              exact hp (by rw [hEq, ← hs])
            have hch := ih w st2 c p (some (keyStr h)) none
            have hhead := analyzeWithAI_trace_head n w st2 c p h none
            simp only [analyzeWithAI, hsel, hkey, hrun, hcand]
            rw [List.chain'_cons']
            constructor
            · intro b hb
              rcases hhead with h0 | ⟨rest, hr⟩
              · rw [h0] at hb; simp at hb
              · rw [hr] at hb
                simp at hb
                subst hb
                exact fun hEq => hne hEq.symm
            · exact hch

/-- Claim C2, counterexample: preferred provider anthropic is not
configured, only openai is; the anthropic attempt fails with its
not-configured error, the openai fallback fails with a backend error, and
the error surfaced to the caller is the openai (fallback) error, not the
primary anthropic one. -/
theorem fallback_error_masks_primary_error :
    (analyzeWithAI 2 wB stB "c" "p" (some "anthropic") none).1 =
      .error (.backendFail .openai 7) ∧
    (analyzeWithAI 2 wB stB "c" "p" (some "anthropic") none).2.2 =
      [.anthropic, .openai] ∧
    Err.backendFail .openai 7 ≠ Err.notConfigured .anthropic := by
  decide

/-- Claim C2, amended: when the primary adapter attempt fails and no
fallback candidate exists, the primary's error is surfaced; but when a
fallback candidate exists, the call's outcome — including any failure — is
exactly the recursive fallback invocation's outcome, so after a failed
fallback the caller sees the fallback chain's final error, not the
primary's. -/
theorem surfaced_error_after_primary_failure (fuel : Nat) (w : World)
    (st : CallState) (c p s : String) (k : ProviderKey) (pm : Option String)
    (e : Err) (st2 : CallState) (hkey : keyOf s = some k)
    (hrun : runAdapter w st k c p pm = (.error e, st2)) :
    (fallbackCandidates st2 s = [] →
      analyzeWithAI (fuel + 1) w st c p (some s) pm = (.error e, st2, [k])) ∧
    (∀ h t, fallbackCandidates st2 s = h :: t →
      analyzeWithAI (fuel + 1) w st c p (some s) pm =
        ((analyzeWithAI fuel w st2 c p (some (keyStr h)) none).1,
         (analyzeWithAI fuel w st2 c p (some (keyStr h)) none).2.1,
         k :: (analyzeWithAI fuel w st2 c p (some (keyStr h)) none).2.2)) :=
  ⟨fun hc => analyzeWithAI_fail_nil fuel w st c p s k pm e st2 hkey hrun hc,
   fun h t hc => analyzeWithAI_fail_cons fuel w st c p s k pm e st2 h t hkey hrun hc⟩

theorem surfaced_error_after_primary_failure_witness :
    analyzeWithAI 2 wB stB "c" "p" (some "anthropic") none =
      ((analyzeWithAI 1 wB stB "c" "p" (some (keyStr .openai)) none).1,
       (analyzeWithAI 1 wB stB "c" "p" (some (keyStr .openai)) none).2.1,
       ProviderKey.anthropic ::
         (analyzeWithAI 1 wB stB "c" "p" (some (keyStr .openai)) none).2.2) :=
  (surfaced_error_after_primary_failure 1 wB stB "c" "p" "anthropic"
    .anthropic none (.notConfigured .anthropic) stB rfl rfl).2 .openai [] rfl

/-- Claim C3, counterexample: with anthropic unconfigured and openai
available, a call preferring anthropic still selects anthropic (the
selection does not fall through to the priority order, which would give
openai), and anthropic is the first provider attempted. -/
theorem unavailable_preference_still_selected :
    stB.avail .anthropic = false ∧
    selectProvider stB (some "anthropic") = some "anthropic" ∧
    (getBestProvider stB).map keyStr = some "openai" ∧
    ("anthropic" : String) ≠ "openai" ∧
    (analyzeWithAI 2 wD stB "c" "p" (some "anthropic") none).2.2.head? =
      some .anthropic := by
  decide

/-- Claim C3, amended: a supplied (non-empty) preferred provider key is
selected outright, whether or not that provider is available; when it is
an unavailable hosted provider its adapter attempt then fails with the
not-configured error, and only the catch-and-fallback path recovers. -/
theorem preference_selected_regardless_of_availability (w : World)
    (st : CallState) (c p : String) (k : ProviderKey) (pm : Option String)
    (hun : st.avail k = false) (hk : k ≠ ProviderKey.ollama) :
    selectProvider st (some (keyStr k)) = some (keyStr k) ∧
    runAdapter w st k c p pm = (.error (.notConfigured k), st) := by
  refine ⟨selectProvider_some st (keyStr_ne_empty k), ?_⟩
  cases k with
  | anthropic => simp [runAdapter, analyzeWithAnthropic, hun]
  | xai => simp [runAdapter, analyzeWithXAI, hun]
  | openai => simp [runAdapter, analyzeWithOpenAI, hun]
  | groq => simp [runAdapter, analyzeWithGroq, hun]
  | ollama => exact absurd rfl hk
  | huggingface => simp [runAdapter, analyzeWithHuggingFace, hun]

theorem preference_selected_regardless_of_availability_witness :
    selectProvider stB (some (keyStr .anthropic)) = some (keyStr .anthropic) ∧
    runAdapter wD stB .anthropic "c" "p" none =
      (.error (.notConfigured .anthropic), stB) :=
  preference_selected_regardless_of_availability wD stB "c" "p" .anthropic
    none rfl (by decide)

/-- Claim C4, counterexample: with xai, openai and groq available and the
primary xai failing, the fallback attempted is openai (the first remaining
entry of the registry's declaration order), whereas the priority order of
`getBestProvider` applied to the remaining providers would give groq. -/
theorem fallback_order_differs_from_priority :
    (analyzeWithAI 2 wC stC "c" "p" none none).2.2 = [.xai, .openai] ∧
    (analyzeWithAI 2 wC stC "c" "p" none none).1 =
      .ok ⟨"A", "openai", .val "gpt-3.5-turbo"⟩ ∧
    getBestProvider ⟨fun k => if k = .xai then false else stC.avail k⟩ = some .groq ∧
    ProviderKey.openai ≠ ProviderKey.groq := by
  decide

/-- Claim C4, amended: when the primary attempt fails, the fallback
provider is the head of `fallbackCandidates` — the available providers in
the registry object's declaration order (anthropic, xai, openai, groq,
ollama, huggingface) with the failed provider's key filtered out — not
the `getBestProvider` priority order; the next adapter attempted is
exactly that head. -/
theorem fallback_is_first_registry_candidate (fuel : Nat) (w : World)
    (st : CallState) (c p s : String) (k : ProviderKey) (pm : Option String)
    (e : Err) (st2 : CallState) (h : ProviderKey) (t : List ProviderKey)
    (hkey : keyOf s = some k)
    (hrun : runAdapter w st k c p pm = (.error e, st2))
    (hcand : fallbackCandidates st2 s = h :: t) :
    ∃ rest, (analyzeWithAI (fuel + 1 + 1) w st c p (some s) pm).2.2 =
      k :: h :: rest := by
  have hstep := analyzeWithAI_fail_cons (fuel + 1) w st c p s k pm e st2 h t hkey hrun hcand
  obtain ⟨rest, hr⟩ := analyzeWithAI_trace_head_succ fuel w st2 c p h none
  refine ⟨rest, ?_⟩
  rw [hstep]
  simp [hr]

theorem fallback_is_first_registry_candidate_witness :
    ∃ rest, (analyzeWithAI 2 wC stC "c" "p" (some "xai") none).2.2 =
      ProviderKey.xai :: ProviderKey.openai :: rest :=
  fallback_is_first_registry_candidate 0 wC stC "c" "p" "xai" .xai none
    (.backendFail .xai 0) stC .openai [.groq] rfl rfl rfl

/-- Claim C5: with no preference, selection returns the first available
provider under the fixed priority order anthropic > xai > ollama > groq >
huggingface > openai — for every registry state, so the result tracks any
change in the set of available providers. -/
theorem getBestProvider_is_priority_find (st : CallState) :
    getBestProvider st = specPriorityOrder.find? (fun k => st.avail k) := by
  unfold getBestProvider specPriorityOrder
  cases hA : st.avail .anthropic <;> cases hX : st.avail .xai <;>
    cases hO : st.avail .ollama <;> cases hG : st.avail .groq <;>
    cases hH : st.avail .huggingface <;> cases hP : st.avail .openai <;>
    simp [List.find?, hA, hX, hO, hG, hH, hP]

/-- Claim C6: when every provider's available flag is down, the available
list is empty, selection returns none, and the orchestrator (called
without a preference) fails with the no-provider error having invoked no
adapter at all (empty attempt trace). -/
theorem no_provider_available_fatal_no_attempts (fuel : Nat) (w : World)
    (st : CallState) (c p : String) (pm : Option String)
    (h : ∀ k, st.avail k = false) :
    getAvailableProviders st = [] ∧ getBestProvider st = none ∧
    analyzeWithAI (fuel + 1) w st c p none pm =
      (.error .noProviderAvailable, st, []) := by
  have hbest : getBestProvider st = none := by simp [getBestProvider, h]
  refine ⟨?_, hbest, ?_⟩
  · simp [getAvailableProviders, registryOrder, h]
  · simp [analyzeWithAI, selectProvider, hbest]

theorem no_provider_available_fatal_no_attempts_witness :
    getAvailableProviders stNone = [] ∧ getBestProvider stNone = none ∧
    analyzeWithAI 1 wNone stNone "c" "p" none none =
      (.error .noProviderAvailable, stNone, []) :=
  no_provider_available_fatal_no_attempts 0 wNone stNone "c" "p" none (fun _ => rfl)

/-- Claim C7, counterexample: for an instruction prompt of 1001
characters, the huggingface adapter's outbound `inputs` field is not the
prompt — the instruction text itself is truncated to 1000 characters, so
it is not delivered intact. -/
theorem hf_truncates_instruction_text :
    hfRequestInput "doc" (String.mk (List.replicate 1001 'a')) ≠
      String.mk (List.replicate 1001 'a') := by
  intro hEq
  have hlen := congrArg (fun s => s.data.length) hEq
  simp only [hfRequestInput, jsSubstring, List.length_take, List.length_replicate] at hlen
  omega

/-- Claim C7, amended: the ollama adapter truncates only the document
portion (to its first 3000 characters) and delivers the instruction
prompt intact as a prefix of its outbound payload; the huggingface
adapter instead sends only the first 1000 characters of the instruction
prompt and ignores the document text entirely. -/
theorem truncation_ollama_document_hf_instruction (c c2 p : String) :
    (∃ rest, ollamaRequestPrompt c p = p ++ rest) ∧
    (hfRequestInput c p).data = p.data.take 1000 ∧
    hfRequestInput c p = hfRequestInput c2 p ∧
    (jsSubstring c 3000).data.length ≤ 3000 := by
  refine ⟨⟨"\n\nDocument content: " ++ jsSubstring c 3000, ?_⟩, rfl, rfl, ?_⟩
  · unfold ollamaRequestPrompt
    exact String.append_assoc p "\n\nDocument content: " (jsSubstring c 3000)
  · simp [jsSubstring]

/-- Claim C8, counterexample: the huggingface adapter reports model
`"DialoGPT-large"` in its result, which is not the first entry
`"microsoft/DialoGPT-large"` of its descriptor's supported-model list. -/
theorem hf_reported_model_differs_from_descriptor :
    analyzeWithHuggingFace wD stHF "c" "p" =
      .ok ⟨"A", "huggingface", .val "DialoGPT-large"⟩ ∧
    (providerModels .huggingface).headD "" = "microsoft/DialoGPT-large" ∧
    (JSVal.val "DialoGPT-large" : JSVal String) ≠ JSVal.val "microsoft/DialoGPT-large" := by
  decide

/-- Claim C8, amended: with no model supplied, every adapter invokes its
backend with the first entry of its descriptor's supported-model list
(the huggingface endpoint URL embeds that first entry), and every adapter
also reports that entry in its result — except huggingface, which reports
the shortened name `"DialoGPT-large"` without the `microsoft/` namespace
prefix of its descriptor entry. -/
theorem adapters_default_to_first_model (w : World) (st : CallState)
    (c p s : String) :
    (st.avail .anthropic = true → w.resp .anthropic = .ok s →
      analyzeWithAnthropic w st c p .undef =
        .ok ⟨s, "anthropic", .val ((providerModels .anthropic).headD "")⟩) ∧
    (st.avail .xai = true → w.resp .xai = .ok s →
      analyzeWithXAI w st c p = .ok ⟨s, "xai", .val ((providerModels .xai).headD "")⟩) ∧
    (st.avail .openai = true → w.resp .openai = .ok s →
      analyzeWithOpenAI w st c p = .ok ⟨s, "openai", .val ((providerModels .openai).headD "")⟩) ∧
    (st.avail .groq = true → w.resp .groq = .ok s →
      analyzeWithGroq w st c p = .ok ⟨s, "groq", .val ((providerModels .groq).headD "")⟩) ∧
    (w.ollamaRuntime = true → w.resp .ollama = .ok s →
      (analyzeWithOllama w st c p).1 =
        .ok ⟨s, "ollama", .val ((providerModels .ollama).headD "")⟩) ∧
    (st.avail .huggingface = true → w.resp .huggingface = .ok s → s ≠ "" →
      analyzeWithHuggingFace w st c p = .ok ⟨s, "huggingface", .val "DialoGPT-large"⟩) ∧
    hfEndpoint = "https://api-inference.huggingface.co/models/" ++
      (providerModels .huggingface).headD "" := by
  refine ⟨?_, ?_, ?_, ?_, ?_, ?_, rfl⟩
  · intro h1 h2; simp [analyzeWithAnthropic, h1, h2, jsOrDefault, providerModels]
  · intro h1 h2; simp [analyzeWithXAI, h1, h2, providerModels]
  · intro h1 h2; simp [analyzeWithOpenAI, h1, h2, providerModels]
  · intro h1 h2; simp [analyzeWithGroq, h1, h2, providerModels]
  · intro h1 h2; simp [analyzeWithOllama, checkOllamaAvailability, h1, h2, providerModels]
  · intro h1 h2 h3; simp [analyzeWithHuggingFace, h1, h2, h3]

theorem adapters_default_to_first_model_witness :
    analyzeWithAnthropic wAll stAll "c" "p" .undef =
      .ok ⟨"txt", "anthropic", .val ((providerModels .anthropic).headD "")⟩ ∧
    (analyzeWithOllama wAll stAll "c" "p").1 =
      .ok ⟨"txt", "ollama", .val ((providerModels .ollama).headD "")⟩ ∧
    analyzeWithHuggingFace wAll stAll "c" "p" =
      .ok ⟨"txt", "huggingface", .val "DialoGPT-large"⟩ := by
  have h := adapters_default_to_first_model wAll stAll "c" "p" "txt"
  exact ⟨h.1 rfl rfl, h.2.2.2.2.1 rfl rfl, h.2.2.2.2.2.1 rfl rfl (by decide)⟩

/-- Claim C9: a caller-supplied preferred model is discarded by the
orchestrator's dispatch for every provider key other than anthropic — the
whole call (result, final state and attempt trace) is identical for any
two preferred-model arguments. -/
theorem preferredModel_ignored_outside_anthropic (fuel : Nat) (w : World)
    (st : CallState) (c p : String) (k : ProviderKey) (m1 m2 : Option String)
    (hk : k ≠ ProviderKey.anthropic) :
    analyzeWithAI fuel w st c p (some (keyStr k)) m1 =
      analyzeWithAI fuel w st c p (some (keyStr k)) m2 := by
  cases fuel with
  | zero => rfl
  | succ n =>
    rw [analyzeWithAI_succ_known, analyzeWithAI_succ_known,
      runAdapter_model_irrelevant w st c p hk m1 m2]

theorem preferredModel_ignored_outside_anthropic_witness :
    analyzeWithAI 1 wD stB "c" "p" (some (keyStr .xai)) (some "gpt-4") =
      analyzeWithAI 1 wD stB "c" "p" (some (keyStr .xai)) none :=
  preferredModel_ignored_outside_anthropic 1 wD stB "c" "p" .xai
    (some "gpt-4") none (by decide)

/-- Claim C10: an unrecognized preferred provider string is caught (the
unknown-provider throw never reaches the caller): with at least one
available provider whose adapter succeeds, the call returns that
provider's successful result, having attempted exactly that provider. -/
theorem unknown_preference_falls_back_to_available (fuel : Nat) (w : World)
    (st : CallState) (c p u : String) (pm : Option String) (r : AIResult)
    (st2 : CallState) (h : ProviderKey) (t : List ProviderKey)
    (hu : keyOf u = none) (hne : u ≠ "")
    (hav : getAvailableProviders st = h :: t)
    (hrun : runAdapter w st h c p none = (.ok r, st2)) :
    analyzeWithAI (fuel + 2) w st c p (some u) pm = (.ok r, st2, [h]) := by
  rw [analyzeWithAI_succ_unknown (fuel + 1) w st c p u pm hu hne]
  simp only [hav]
  rw [analyzeWithAI_succ_known, hrun]

theorem unknown_preference_falls_back_to_available_witness :
    analyzeWithAI 2 wD stB "c" "p" (some "bogus") none =
      (.ok ⟨"A", "openai", .val "gpt-3.5-turbo"⟩, stB, [.openai]) :=
  unknown_preference_falls_back_to_available 0 wD stB "c" "p" "bogus" none
    ⟨"A", "openai", .val "gpt-3.5-turbo"⟩ stB .openai [] rfl (by decide) rfl rfl
